import Mathlib

/-!
Shallow embedding of the acl-relay-synchronization storage layer
(src/db/database.rs), the relay pipeline loops (src/services/app.rs) and the
indexdb conversion (src/indexdb/indexdb.rs), together with theorems settling
the specification claims about them.

Modelling conventions:
* Database queries are assumed to succeed (the backend is reachable); the
  error branch each source function propagates with the question-mark
  operator is still represented by an explicit Except value, it just never
  takes the error case in the model.
* The last_update column is a signed 64-bit integer in the schema, written
  as (value as i64) from a u64 and read back as (column as u64).  These two
  casts are mutually inverse bijections on 64-bit patterns, so the column is
  modelled directly by the u64 value it round-trips, as a Nat.
* The LastUpdate table is read exclusively with find().one() and a row is
  inserted only when that read finds none, so the table is modelled as at
  most one row (Option Nat).  The schema of this table has no direction
  column at all; every pipeline direction reads and writes this same record.
* The NostrEvent table has an auto-increment primary key and NO uniqueness
  constraint on event_id (migration m20241204_062406), so it is modelled as
  the list of event_id values in insertion order.
* A Rust .unwrap() / .expect() on an error value is a panic; a panic is
  modelled as Option.none (no normal continuation).
-/

namespace AclRelay

/-- Stand-in for sea_orm DbErr (and the error::Error wrappers around it).
Queries succeed in the model, so no value of this type is ever produced, but
the branch is kept so that the unwraps of the source remain visible. -/
inductive DbErr where
  | backend
deriving DecidableEq, Repr

/-- Persisted database state: the single last_update record (none before the
first insert) and the nostr_event rows, as their event_id strings in
insertion order. -/
structure Storage where
  lastUpdate : Option Nat
  events : List String
deriving DecidableEq, Repr

/-- Rust Result::unwrap: ok yields the value, an error panics (none). -/
def rustUnwrap {ε α : Type} : Except ε α → Option α
  | .ok a => some a
  | .error _ => none

/-- Storage::get_last_update (database.rs lines 71-84): find().one() on the
LastUpdate table; when a row exists return its last_update as u64, otherwise
insert a fresh row carrying init and return init. -/
def get_last_update (s : Storage) (init : Nat) : Storage × Except DbErr Nat :=
  match s.lastUpdate with
  | some last => (s, Except.ok last)
  | none => ({ s with lastUpdate := some init }, Except.ok init)

/-- Storage::update_last_update (database.rs lines 86-99): when find().one()
yields a row, overwrite its last_update with the argument; when no row
exists, do nothing; in both cases return Ok(()). -/
def update_last_update (s : Storage) (last : Nat) : Storage × Except DbErr Unit :=
  match s.lastUpdate with
  | some _ => ({ s with lastUpdate := some last }, Except.ok ())
  | none => (s, Except.ok ())

/-- The query inside Storage::is_event_existed: find the first nostr_event
row whose event_id equals id.  A successful query returns Ok of the optional
row, also when no row matches. -/
def find_one_event (s : Storage) (id : String) : Except DbErr (Option String) :=
  Except.ok (s.events.find? (fun e => e == id))

/-- Storage::is_event_existed (database.rs lines 101-112): runs the
find_one_event query and returns Some(()) when the query result is_ok(),
None otherwise.  The content of the Ok - whether a row was found - is never
inspected. -/
def is_event_existed (s : Storage) (id : String) : Option Unit :=
  if (find_one_event s id).isOk then some () else none

/-- Storage::add_new_event (database.rs lines 114-124): plain insert of a
new row carrying the given event_id; the table has no uniqueness constraint,
so the insert succeeds also when the id is already present. -/
def add_new_event (s : Storage) (id : String) : Storage × Except DbErr Unit :=
  ({ s with events := s.events ++ [id] }, Except.ok ())

/-- A nostr event as the pipeline sees it: its id, created_at timestamp, the
author pubkey and the content string (nostr_sdk::Event fields used by the
code). -/
structure Event where
  id : String
  created_at : Nat
  pubkey : String
  content : String
deriving DecidableEq, Repr

/-- Failure of NostrClient::fetch_from_relay (timeout waiting on the relay,
or a transport error of the underlying client). -/
inductive FetchErr where
  | timeout
  | transport
deriving DecidableEq, Repr

/-- Body of the per-event branch inside the fetch loop of
App::from_nostr_to_waku (app.rs lines 133-143) and, identically,
App::from_nostr_to_indexdb (lines 201-211).  State is (store,
last_fetch_time, events pushed to the channel so far).  The code enters the
record-and-forward branch when is_event_existed returns Some, and skips the
event otherwise; inside the branch it bumps last_fetch_time, calls
add_new_event and unwraps its result, then sends the event on the channel
(the send result is discarded with a wildcard let). -/
def process_event (acc : Storage × Nat × List Event) (e : Event) :
    Option (Storage × Nat × List Event) :=
  match is_event_existed acc.1 e.id with
  | some _ =>
    let lft := if e.created_at > acc.2.1 then e.created_at else acc.2.1
    let r := add_new_event acc.1 e.id
    match rustUnwrap r.2 with
    | some _ => some (r.1, lft, acc.2.2 ++ [e])
    | none => none
  | none => some acc

/-- One iteration of the polling loop of App::from_nostr_to_waku (app.rs
lines 121-152): read the last fetch time with get_last_update(0) and unwrap
it, unwrap the fetch result, process each fetched event in order, then
update_last_update with the final last_fetch_time, unwrapping its result.
The fetched batch is the input; none means the iteration panicked.  Returns
the store afterwards and the events pushed to the channel this cycle. -/
def run_cycle (store : Storage) (fetched : Except FetchErr (List Event)) :
    Option (Storage × List Event) := do
  let g := get_last_update store 0
  let lft ← rustUnwrap g.2
  let events ← rustUnwrap fetched
  let step ← events.foldlM process_event (g.1, lft, ([] : List Event))
  let u := update_last_update step.1 step.2.1
  let _ ← rustUnwrap u.2
  some (u.1, step.2.2)

/-- Several iterations of the polling loop, one fetched batch per cycle,
accumulating every event the pipeline pushed to the channel over its
lifetime. -/
def run_cycles (store : Storage) (batches : List (Except FetchErr (List Event))) :
    Option (Storage × List Event) :=
  batches.foldlM
    (fun acc b => (run_cycle acc.1 b).map (fun r => (r.1, acc.2 ++ r.2)))
    (store, ([] : List Event))

/-- Outcome of one outbound HTTP send: a response carrying a status code, or
a network error before any response. -/
inductive HttpOutcome where
  | resp (status : Nat)
  | netErr
deriving DecidableEq, Repr

/-- Consumer task of App::from_nostr_to_waku (app.rs lines 92-118): for each
event received from the channel it performs exactly one POST to the waku
send api and unwraps the send result, so a network error panics the task;
a response is only logged, whatever its status, and the loop moves on.  The
oracle gives the outcome of the single POST made for each event; the result
lists the status codes observed, none meaning the task panicked. -/
def waku_consumer (oracle : Event → HttpOutcome) : List Event → Option (List Nat)
  | [] => some []
  | e :: es =>
    match oracle e with
    | .resp st => (waku_consumer oracle es).map (fun r => st :: r)
    | .netErr => none

/-- Content structure of a nostr invite event (indexdb.rs
NostrInviteEventContent); the metadata field is omitted because the
conversion below never reads it. -/
structure NostrInviteEventContent where
  inviter : String
  invitee : String
  project_id : String
  event_type : String
deriving DecidableEq, Repr

/-- Nested event part of an InviteMsg; source serde field names are from and
to (renamed here because Lean reserves from). -/
structure InviteMsgEvent where
  fromUser : String
  toUser : String
deriving DecidableEq, Repr

/-- The webhook body built from a nostr event (indexdb.rs InviteMsg). -/
structure InviteMsg where
  project : String
  id : String
  account : String
  event_type : String
  event : InviteMsgEvent
deriving DecidableEq, Repr

/-- TryFrom nostr_sdk::Event for InviteMsg (indexdb.rs lines 60-78): the
event content is deserialized with serde_json::from_str and the result is
immediately unwrapped, so a malformed content panics before the fallible
conversion can return; the parse of the content string is external and is
passed as an oracle. -/
def invite_msg_try_from (parse : String → Except Unit NostrInviteEventContent)
    (e : Event) : Option InviteMsg :=
  match rustUnwrap (parse e.content) with
  | some invite =>
    some ⟨invite.project_id, e.id, e.pubkey, invite.event_type,
      ⟨invite.inviter, invite.invitee⟩⟩
  | none => none

/-- Consumer task of App::from_nostr_to_indexdb (app.rs lines 181-187):
each received event goes through
IndexdbServer::send_invite_event_to_indexdb, which converts it with
try_into().unwrap() (indexdb.rs line 98); a conversion panic kills the task
and the remaining events of the batch are never processed.  The HTTP POST of
the converted message is outside the scope of this model; the result lists
the messages successfully built, none meaning the task panicked. -/
def indexdb_consumer (parse : String → Except Unit NostrInviteEventContent) :
    List Event → Option (List InviteMsg)
  | [] => some []
  | e :: es =>
    match invite_msg_try_from parse e with
    | some m => (indexdb_consumer parse es).map (fun r => m :: r)
    | none => none

/-- Returned values of a sequence of successive Storage::get_last_update
calls, one default per call, threading the store through. -/
def get_run : Storage → List Nat → List Nat
  | _, [] => []
  | s, init :: rest =>
    match get_last_update s init with
    | (s1, .ok v) => v :: get_run s1 rest
    | (_, .error _) => []

/-- Once the last_update row exists, every further get_last_update returns
its value and leaves the store unchanged, whatever defaults are supplied. -/
lemma get_run_some (w : Nat) (ev : List String) (inits : List Nat) :
    get_run ⟨some w, ev⟩ inits = List.replicate inits.length w := by
  induction inits with
  | nil => rfl
  | cons i is ih => simp [get_run, get_last_update, ih, List.replicate_succ]

/-- A constant list is a chain for the less-or-equal relation. -/
lemma chain_cons_replicate (n w : Nat) :
    List.Chain' (fun a b => a ≤ b) (w :: List.replicate n w) := by
  induction n with
  | zero => simp
  | succ n ih =>
    rw [List.replicate_succ, List.chain'_cons]
    exact ⟨le_refl w, ih⟩

/-- Replicated lists are chains for the less-or-equal relation. -/
lemma chain_replicate (n w : Nat) :
    List.Chain' (fun a b => a ≤ b) (List.replicate n w) := by
  cases n with
  | zero => simp
  | succ n => rw [List.replicate_succ]; exact chain_cons_replicate n w

/-- Claim C1: the spec states that an event whose id has_seen reports as
already recorded is skipped and every event id is enqueued at most once per
pipeline lifetime.  The code does the opposite: is_event_existed answers
Some for every id (its query is Ok also when no row matches) and the branch
that records and forwards is the one taken when the check reports the event
as seen.  Evaluating two poll cycles that each fetch the same single event
from an initially empty store: the event is recorded and pushed to the
channel in BOTH cycles, so its id is enqueued twice. -/
theorem c1_inverted_check_duplicates :
    run_cycles ⟨none, []⟩
      [Except.ok [⟨"a", 5, "pk", "x"⟩], Except.ok [⟨"a", 5, "pk", "x"⟩]]
      = some (⟨some 5, ["a", "a"]⟩,
          [⟨"a", 5, "pk", "x"⟩, ⟨"a", 5, "pk", "x"⟩]) := rfl

/-- Claim C2: the spec states that is_event_existed reports an id present
if and only if add_new_event was previously called for it, in particular
absent when no row with that event_id exists.  In the code the function
only tests is_ok() of the query, and a query finding no row still returns
Ok(None): on an empty ledger, where the id was never recorded and is not a
member, the check nevertheless reports it as present. -/
theorem c2_is_event_existed_ignores_membership :
    is_event_existed ⟨none, []⟩ "a" = some ()
    ∧ "a" ∉ (⟨none, []⟩ : Storage).events :=
  ⟨rfl, List.not_mem_nil "a"⟩

/-- Claim C3 counterexample: with the stored watermark 5 and candidate 3,
update_last_update stores 3, not max 5 3 = 5, so the call is neither a
max nor a no-op when the candidate is below the current value, and the
observed watermark decreases. -/
theorem c3_counterexample_not_max :
    (update_last_update ⟨some 5, []⟩ 3).1.lastUpdate = some 3
    ∧ some 3 ≠ some (max 5 3) :=
  ⟨rfl, by decide⟩

/-- Claim C3 as amended: update_last_update overwrites the stored watermark
with the candidate whenever a row exists (so the stored value can decrease
when the candidate is smaller), is a no-op on the store when no row exists,
always returns Ok, and is idempotent. -/
theorem c3_overwrite_semantics (ev : List String) (w c : Nat) (s : Storage) :
    (update_last_update ⟨some w, ev⟩ c).1 = ⟨some c, ev⟩
    ∧ (update_last_update ⟨none, ev⟩ c).1 = ⟨none, ev⟩
    ∧ (update_last_update s c).2 = Except.ok ()
    ∧ update_last_update (update_last_update s c).1 c = update_last_update s c := by
  obtain ⟨lu, ev2⟩ := s
  refine ⟨rfl, rfl, ?_, ?_⟩ <;> cases lu <;> simp [update_last_update]

/-- Claim C4: the spec states that each relay direction uses an isolated
watermark record and that advancing one direction never changes what another
direction reads.  The last_update table of the code has no direction column
and every pipeline calls the same get_last_update and update_last_update on
it: starting from an empty store, after one direction initialises the row
with default 0 and advances the watermark to 10, the other direction's read
(with its own default 0) observes 10, not its own value. -/
theorem c4_single_shared_watermark_row :
    (get_last_update
        (update_last_update (get_last_update ⟨none, []⟩ 0).1 10).1 0).2
      = Except.ok 10
    ∧ (10 : Nat) ≠ 0 :=
  ⟨rfl, by decide⟩

/-- Claim C5 counterexample: calling add_new_event twice with the same id
on an initially empty ledger leaves two rows carrying that event_id, so the
second call is not a no-op and the ledger does not hold one membership entry
per id (the migration creates no uniqueness constraint on event_id). -/
theorem c5_counterexample_duplicate_insert :
    (add_new_event (add_new_event ⟨none, []⟩ "a").1 "a").1.events = ["a", "a"]
    ∧ (["a", "a"] : List String) ≠ ["a"] :=
  ⟨rfl, by decide⟩

/-- Claim C5 as amended: add_new_event is a plain insert that always appends
a new row with the given event_id and never errors; a repeated call for the
same id therefore appends a duplicate row rather than being a no-op, though
the id is a member of the ledger after any call. -/
theorem c5_plain_insert_semantics (s : Storage) (id : String) :
    (add_new_event s id).1.events = s.events ++ [id]
    ∧ (add_new_event s id).2 = Except.ok ()
    ∧ id ∈ (add_new_event s id).1.events := by
  refine ⟨rfl, rfl, ?_⟩
  simp [add_new_event]

/-- Claim C6: the spec states that a fetch timeout or transport error is
transient: the pipeline must log it, leave the watermark alone, and retry
the same range after a backoff without terminating the process.  The code
unwraps the fetch result, so a fetch error panics the pipeline task: the
cycle has no normal continuation (no retry, process termination) instead of
the mandated log-and-retry. -/
theorem c6_fetch_error_panics :
    run_cycle ⟨some 8, []⟩ (Except.error FetchErr.timeout) = none := rfl

/-- Claim C7: the spec states that the consumer retries a failed forward up
to a bounded count with backoff, so that an event whose sends fail three
times and succeed on the fourth attempt sees exactly one successful outbound
call.  The code performs exactly one POST per event: a network error on that
single attempt panics the consumer task via unwrap (so an event whose first
attempt fails gets zero successful calls and no retry), and a non-success
response status is only logged, the item being dropped after the single
attempt. -/
theorem c7_forward_no_retry :
    waku_consumer (fun _ => HttpOutcome.netErr) [⟨"c", 1, "pk", "x"⟩] = none
    ∧ waku_consumer (fun _ => HttpOutcome.resp 500) [⟨"c", 1, "pk", "x"⟩]
        = some [500] :=
  ⟨rfl, rfl⟩

/-- Claim C8: the spec states that an event whose payload fails to
deserialize is skipped with a log and the rest of the batch continues, with
no panic path reachable from a deserialization failure.  The InviteMsg
conversion unwraps serde_json::from_str on the event content, so a malformed
payload panics; in a batch whose first event is malformed and whose second
is well formed, the consumer dies on the first and the well-formed remainder
is never processed. -/
theorem c8_malformed_payload_panics :
    invite_msg_try_from (fun _ => Except.error ()) ⟨"a", 5, "pk", "bad"⟩ = none
    ∧ indexdb_consumer
        (fun c => if c = "good" then Except.ok ⟨"u", "v", "proj", "invite"⟩
          else Except.error ())
        [⟨"a", 5, "pk", "bad"⟩, ⟨"b", 6, "pk", "good"⟩] = none := by
  constructor <;> rfl

/-- Claim C9: get_last_update returns the persisted watermark unchanged when
a row exists, and otherwise persists the supplied default and returns it;
and across any sequence of successive get_last_update calls (whatever
defaults they pass) the returned values never decrease - after the first
call the row exists and every later call returns the same stored value. -/
theorem c9_get_last_update_contract (ev : List String) (w init : Nat)
    (s : Storage) (inits : List Nat) :
    get_last_update ⟨some w, ev⟩ init = (⟨some w, ev⟩, Except.ok w)
    ∧ get_last_update ⟨none, ev⟩ init = (⟨some init, ev⟩, Except.ok init)
    ∧ List.Chain' (fun a b => a ≤ b) (get_run s inits) := by
  refine ⟨rfl, rfl, ?_⟩
  obtain ⟨lu, ev2⟩ := s
  cases lu with
  | some w2 => rw [get_run_some]; exact chain_replicate _ _
  | none =>
    cases inits with
    | nil => simp [get_run]
    | cons i is =>
      simp only [get_run, get_last_update, get_run_some]
      exact chain_cons_replicate _ _

/-- Claim C9 witness: the contract evaluated at a concrete store with a
persisted value 7, a concrete empty store, and a concrete call sequence. -/
theorem c9_contract_witness :
    get_last_update ⟨some 7, []⟩ 3 = (⟨some 7, []⟩, Except.ok 7)
    ∧ get_last_update ⟨none, []⟩ 3 = (⟨some 3, []⟩, Except.ok 3)
    ∧ List.Chain' (fun a b => a ≤ b) (get_run ⟨none, []⟩ [4, 2, 9]) :=
  c9_get_last_update_contract [] 7 3 ⟨none, []⟩ [4, 2, 9]

/-- Claim C10: when no watermark row exists, update_last_update finds no row
to update, so for every argument it leaves the database unchanged (it does
not create the row) and still returns Ok(()): an advance attempted before
any get_last_update call is silently lost. -/
theorem c10_update_without_row_noop (ev : List String) (last : Nat) :
    update_last_update ⟨none, ev⟩ last = (⟨none, ev⟩, Except.ok ()) := rfl

end AclRelay
